import Mathlib

/-!
Verification development for the `omne-validator` node.

The Rust sources are shallowly embedded: floating-point (`f64`) quantities
are modelled as exact rationals (`ℚ`), machine integers (`u16/u32/u64/usize`)
as `ℕ`, `u128` as `ℕ`, `Duration` values as their length in seconds, and
fallible constructors as `Except String _`.  Casts `as u64`/`as u128` applied
to non-negative floats truncate toward zero, modelled by `ratToNat` below.
-/

set_option maxHeartbeats 1000000

namespace OmneValidator

/-- Model of the Rust float-to-unsigned cast (`x as u64`, `x as u128`):
truncation toward zero, saturating at zero for negative inputs. -/
def ratToNat (q : ℚ) : ℕ := (⌊q⌋).toNat

theorem ratToNat_mono {q q' : ℚ} (h : q ≤ q') : ratToNat q ≤ ratToNat q' :=
  Int.toNat_le_toNat (Int.floor_le_floor h)

theorem ratToNat_cast_of_nonneg {q : ℚ} (h : 0 ≤ q) :
    (ratToNat q : ℤ) = ⌊q⌋ :=
  Int.toNat_of_nonneg (Int.floor_nonneg.mpr h)

/-! ### Configuration data model (src/config.rs) -/

/-- `ChainSpec` (config.rs): per-network chain constants. -/
structure ChainSpec where
  commerce_block_time : ℕ
  security_block_time : ℕ
  min_validator_stake : ℕ
  max_validators : ℕ
deriving DecidableEq

/-- `NetworkConfig` (config.rs). -/
structure NetworkConfig where
  name : String
  id : ℕ
  genesis_hash : String
  chain_spec : ChainSpec
deriving DecidableEq

/-- `P2PConfig` (config.rs); `connection_timeout` in seconds. -/
structure P2PConfig where
  port : ℕ
  max_peers : ℕ
  bootstrap_peers : List String
  connection_timeout : ℕ
  enable_mdns : Bool
  enable_kad : Bool
deriving DecidableEq

/-- `RpcConfig` (config.rs). -/
structure RpcConfig where
  port : ℕ
  bind_address : String
  enable_http : Bool
  enable_ws : Bool
  max_connections : ℕ
deriving DecidableEq

/-- `SlashingProtectionConfig` (config.rs). -/
structure SlashingProtectionConfig where
  enabled : Bool
  min_source_epoch_diff : ℕ
  min_target_epoch_diff : ℕ
deriving DecidableEq

/-- `ValidatorSettings` (config.rs); key paths kept as optional strings. -/
structure ValidatorSettings where
  is_validator : Bool
  validator_stake : ℕ
  validator_key_path : Option String
  network_key_path : Option String
  auto_restake : Bool
  slashing_protection : SlashingProtectionConfig
deriving DecidableEq

/-- `OonConfig` (config.rs). -/
structure OonConfig where
  enable_oon : Bool
  max_concurrent_jobs : ℕ
  resource_allocation : ℚ
  supported_services : List String
  revenue_share_percentage : ℚ
deriving DecidableEq

/-- `PinningServiceConfig` (config.rs). -/
structure PinningServiceConfig where
  name : String
  endpoint : String
  api_key : String
  priority : ℕ
deriving DecidableEq

/-- `IPFSConfig` (config.rs). -/
structure IPFSConfig where
  api_endpoint : String
  gateway_endpoint : String
  enable_local_node : Bool
  pinning_services : List PinningServiceConfig
deriving DecidableEq

/-- `OMPConfig` (config.rs). -/
structure OMPConfig where
  enable_omp : Bool
  preferred_tiers : List ℕ
  max_storage_gb : ℕ
  pricing_per_gb_quar : ℕ
  ipfs_config : IPFSConfig
deriving DecidableEq

/-- `ORC20RelayerConfig` (config.rs). -/
structure ORC20RelayerConfig where
  enable_relayer : Bool
  max_concurrent_tx : ℕ
  gas_price_multiplier : ℚ
  min_balance_threshold : ℕ
  supported_tokens : List String
deriving DecidableEq

/-- `PaymasterConfig` (config.rs). -/
structure PaymasterConfig where
  enable_paymaster : Bool
  daily_sponsorship_budget : ℕ
  sponsorship_policies : List String
  max_gas_per_tx : ℕ
  max_tx_per_user_per_hour : ℕ
deriving DecidableEq

/-- `ValidatorConfig` (config.rs): the full node configuration. -/
structure ValidatorConfig where
  data_dir : String
  network : NetworkConfig
  p2p : P2PConfig
  rpc : RpcConfig
  validator : ValidatorSettings
  oon : OonConfig
  omp : OMPConfig
  orc20_relayer : ORC20RelayerConfig
  paymaster : PaymasterConfig
deriving DecidableEq

/-! ### Consensus data model (src/consensus.rs) -/

/-- `ConsensusState` (consensus.rs). -/
structure ConsensusState where
  commerce_epoch : ℕ
  security_epoch : ℕ
  commerce_height : ℕ
  security_height : ℕ
  is_active : Bool
  stake : ℕ
  blocks_proposed : ℕ
  attestations_made : ℕ
deriving DecidableEq

/-- `ServiceRevenueBreakdown` (consensus.rs). -/
structure ServiceRevenueBreakdown where
  oon_revenue : ℕ
  omp_revenue : ℕ
  orc20_relayer_revenue : ℕ
  paymaster_revenue : ℕ
deriving DecidableEq

/-- `PerformanceMetrics` (consensus.rs); durations in seconds, the
`start_time` instant as an opaque timestamp. -/
structure PerformanceMetrics where
  total_uptime : ℕ
  total_downtime : ℕ
  blocks_proposed : ℕ
  blocks_missed : ℕ
  avg_block_time : ℕ
  oon_jobs_completed : ℕ
  omp_requests_served : ℕ
  orc20_txs_relayed : ℕ
  paymaster_txs_sponsored : ℕ
  total_revenue_generated : ℕ
  revenue_by_service : ServiceRevenueBreakdown
  start_time : ℕ
deriving DecidableEq

/-- `NetworkMetrics` (consensus.rs); `last_update` instant as an opaque
timestamp. -/
structure NetworkMetrics where
  network_utilization : ℚ
  active_validators : ℕ
  dynamic_stake_requirement : ℕ
  network_health : ℚ
  last_update : ℕ
deriving DecidableEq

/-- `PoVERAValidator` (consensus.rs). -/
structure PoVERAValidator where
  config : ValidatorConfig
  state : ConsensusState
  performance_metrics : PerformanceMetrics
  network_metrics : NetworkMetrics
deriving DecidableEq

/-! ### Economics and metrics calculations -/

/-- `PoVERAValidator::calculate_uptime_percentage` (consensus.rs lines
318-324). -/
def PoVERAValidator.calculate_uptime_percentage (v : PoVERAValidator) : ℚ :=
  let total_time := v.performance_metrics.total_uptime + v.performance_metrics.total_downtime
  if total_time = 0 then 100
  else ((v.performance_metrics.total_uptime : ℚ) / (total_time : ℚ)) * 100

/-- `PoVERAValidator::calculate_performance_bonus` (consensus.rs lines
327-344). -/
def PoVERAValidator.calculate_performance_bonus (v : PoVERAValidator) (base_reward : ℕ) : ℕ :=
  let uptime_score := v.calculate_uptime_percentage / 100
  let block_accuracy : ℚ :=
    if v.performance_metrics.blocks_proposed + v.performance_metrics.blocks_missed > 0 then
      (v.performance_metrics.blocks_proposed : ℚ) /
        ((v.performance_metrics.blocks_proposed + v.performance_metrics.blocks_missed : ℕ) : ℚ)
    else 1
  let performance_score := uptime_score * block_accuracy
  let bonus_multiplier : ℚ :=
    if performance_score ≥ 95 / 100 then 20 / 100
    else if performance_score ≥ 90 / 100 then 15 / 100
    else if performance_score ≥ 85 / 100 then 10 / 100
    else if performance_score ≥ 75 / 100 then 5 / 100
    else 0
  ratToNat ((base_reward : ℚ) * bonus_multiplier)

/-- `PoVERAValidator::calculate_dynamic_stake_requirement` (consensus.rs
lines 377-384). -/
def PoVERAValidator.calculate_dynamic_stake_requirement (v : PoVERAValidator) : ℕ :=
  let base_stake := v.config.network.chain_spec.min_validator_stake
  let utilization_factor := max (1/2 : ℚ) (min 2 (1 + v.network_metrics.network_utilization))
  let validator_density := max (4/5 : ℚ) (min (3/2) ((v.network_metrics.active_validators : ℚ) / 100))
  let dynamic_stake := (base_stake : ℚ) * utilization_factor * validator_density
  max 15 (min 150 (ratToNat dynamic_stake))

/-- `PoVERAValidator::calculate_network_health` (consensus.rs lines
387-393). -/
def PoVERAValidator.calculate_network_health (v : PoVERAValidator) : ℚ :=
  let uptime_score := v.calculate_uptime_percentage
  let validator_count_score : ℚ := if v.network_metrics.active_validators ≥ 21 then 100 else 50
  let utilization_score := (1 - |v.network_metrics.network_utilization - 1/2|) * 100
  (uptime_score + validator_count_score + utilization_score) / 3

/-- The free function `calculate_dynamic_stake_requirement` (validator.rs
lines 201-211). -/
def calculate_dynamic_stake_requirement
    (network_utilization : ℚ) (validator_count : ℕ) (base_stake : ℕ) : ℕ :=
  let utilization_factor := max (1/2 : ℚ) (min 2 (1 + network_utilization))
  let validator_density := max (4/5 : ℚ) (min (3/2) ((validator_count : ℚ) / 100))
  let dynamic_stake := (base_stake : ℚ) * utilization_factor * validator_density
  max 15 (min 150 (ratToNat dynamic_stake))

/-- `calculate_uptime` (utils.rs lines 92-99); both durations in seconds,
`saturating_sub` modelled with `max _ 0`. -/
def calculate_uptime (total_time downtime : ℚ) : ℚ :=
  if total_time = 0 then 100
  else (max (total_time - downtime) 0 / total_time) * 100

/-! ### Spec-side formulas (written from the natural-language spec, for
refinement comparison with the code embeddings above) -/

/-- Spec formula: `base_min_stake × clamp(1 + utilization, 0.5, 2.0) ×
clamp(active_validators / 100, 0.8, 1.5)` (spec §4.4). -/
def spec_dynamic_stake (utilization : ℚ) (active_validators : ℕ) (base_min_stake : ℕ) : ℚ :=
  (base_min_stake : ℚ) * (max (1/2) (min 2 (1 + utilization)))
    * (max (4/5) (min (3/2) ((active_validators : ℚ) / 100)))

/-- Spec formula: hard clamp of the dynamic stake product to `[15, 150]`
stake units (spec §4.4). -/
def spec_clamp_stake (q : ℚ) : ℚ := max 15 (min 150 q)

theorem floor_min_intCast (m : ℤ) (q : ℚ) : ⌊min (m : ℚ) q⌋ = min m ⌊q⌋ := by
  rcases le_total q (m : ℚ) with h | h
  · rw [min_eq_right h,
      min_eq_right ((Int.floor_le_floor h).trans_eq (Int.floor_intCast m))]
  · rw [min_eq_left h, Int.floor_intCast, min_eq_left (Int.le_floor.mpr h)]

theorem floor_max_intCast (m : ℤ) (q : ℚ) : ⌊max (m : ℚ) q⌋ = max m ⌊q⌋ := by
  rcases le_total (m : ℚ) q with h | h
  · rw [max_eq_right h, max_eq_right (Int.le_floor.mpr h)]
  · rw [max_eq_left h, Int.floor_intCast,
      max_eq_left ((Int.floor_le_floor h).trans_eq (Int.floor_intCast m))]

theorem floor_spec_clamp_stake (q : ℚ) :
    ⌊spec_clamp_stake q⌋ = max 15 (min 150 ⌊q⌋) := by
  have h1 : ((15 : ℤ) : ℚ) = (15 : ℚ) := by norm_num
  have h2 : ((150 : ℤ) : ℚ) = (150 : ℚ) := by norm_num
  rw [spec_clamp_stake, ← h1, ← h2, floor_max_intCast, floor_min_intCast]

theorem spec_dynamic_stake_nonneg (u : ℚ) (c b : ℕ) : 0 ≤ spec_dynamic_stake u c b := by
  unfold spec_dynamic_stake
  have hu : (0:ℚ) ≤ max (1/2) (min 2 (1 + u)) := le_trans (by norm_num) (le_max_left _ _)
  have hc : (0:ℚ) ≤ max (4/5) (min (3/2) ((c : ℚ) / 100)) :=
    le_trans (by norm_num) (le_max_left _ _)
  positivity

theorem spec_dynamic_stake_mono_left {u u' : ℚ} (c b : ℕ) (h : u ≤ u') :
    spec_dynamic_stake u c b ≤ spec_dynamic_stake u' c b := by
  unfold spec_dynamic_stake
  have hc : (0:ℚ) ≤ max (4/5) (min (3/2) ((c : ℚ) / 100)) :=
    le_trans (by norm_num) (le_max_left _ _)
  have hmul : max (1/2 : ℚ) (min 2 (1 + u)) ≤ max (1/2) (min 2 (1 + u')) :=
    max_le_max le_rfl (min_le_min le_rfl (by linarith))
  exact mul_le_mul_of_nonneg_right
    (mul_le_mul_of_nonneg_left hmul (by positivity)) hc

theorem spec_dynamic_stake_mono_count (u : ℚ) {c c' : ℕ} (b : ℕ) (h : c ≤ c') :
    spec_dynamic_stake u c b ≤ spec_dynamic_stake u c' b := by
  unfold spec_dynamic_stake
  have hu : (0:ℚ) ≤ (b : ℚ) * max (1/2) (min 2 (1 + u)) := by
    have : (0:ℚ) ≤ max (1/2 : ℚ) (min 2 (1 + u)) := le_trans (by norm_num) (le_max_left _ _)
    positivity
  have hdens : max (4/5 : ℚ) (min (3/2) ((c : ℚ) / 100))
      ≤ max (4/5) (min (3/2) ((c' : ℚ) / 100)) := by
    refine max_le_max le_rfl (min_le_min le_rfl ?_)
    have : (c : ℚ) ≤ (c' : ℚ) := by exact_mod_cast h
    linarith
  exact mul_le_mul_of_nonneg_left hdens hu

theorem calculate_dynamic_stake_eq_clamped_spec (u : ℚ) (c b : ℕ) :
    (calculate_dynamic_stake_requirement u c b : ℤ)
      = ⌊spec_clamp_stake (spec_dynamic_stake u c b)⌋ := by
  rw [floor_spec_clamp_stake]
  have h : calculate_dynamic_stake_requirement u c b
      = max 15 (min 150 (ratToNat (spec_dynamic_stake u c b))) := rfl
  rw [h]
  push_cast [Nat.cast_max, Nat.cast_min]
  rw [ratToNat_cast_of_nonneg (spec_dynamic_stake_nonneg u c b)]

/-- Claim C1: for every utilization in `[0,1]`, every validator count and
every base minimum stake, the dynamic stake requirement equals the spec's
product of clamped factors hard-clamped to `[15,150]` (truncated to whole
stake units, as forced by the `u64` return type); it always lies in
`[15, 150]`, and it is non-decreasing in the utilization and in the
validator count. -/
theorem dynamic_stake_requirement_spec (u u' : ℚ) (c c' b : ℕ)
    (h0 : 0 ≤ u) (h1 : u ≤ 1) (hu : u ≤ u') (hc : c ≤ c') :
    (calculate_dynamic_stake_requirement u c b : ℤ)
        = ⌊spec_clamp_stake (spec_dynamic_stake u c b)⌋
    ∧ 15 ≤ calculate_dynamic_stake_requirement u c b
    ∧ calculate_dynamic_stake_requirement u c b ≤ 150
    ∧ calculate_dynamic_stake_requirement u c b ≤ calculate_dynamic_stake_requirement u' c b
    ∧ calculate_dynamic_stake_requirement u c b ≤ calculate_dynamic_stake_requirement u c' b := by
  refine ⟨calculate_dynamic_stake_eq_clamped_spec u c b, ?_, ?_, ?_, ?_⟩
  · exact le_max_left _ _
  · exact max_le (by norm_num) (min_le_left _ _)
  · unfold calculate_dynamic_stake_requirement
    exact max_le_max le_rfl (min_le_min le_rfl
      (ratToNat_mono (spec_dynamic_stake_mono_left c b hu)))
  · unfold calculate_dynamic_stake_requirement
    exact max_le_max le_rfl (min_le_min le_rfl
      (ratToNat_mono (spec_dynamic_stake_mono_count u b hc)))

/-- Witness for C1 at utilization `1/2 ≤ 3/4`, counts `50 ≤ 80`, base 20. -/
theorem dynamic_stake_requirement_spec_witness :
    (calculate_dynamic_stake_requirement (1/2) 50 20 : ℤ)
        = ⌊spec_clamp_stake (spec_dynamic_stake (1/2) 50 20)⌋
    ∧ 15 ≤ calculate_dynamic_stake_requirement (1/2) 50 20
    ∧ calculate_dynamic_stake_requirement (1/2) 50 20 ≤ 150
    ∧ calculate_dynamic_stake_requirement (1/2) 50 20
        ≤ calculate_dynamic_stake_requirement (3/4) 50 20
    ∧ calculate_dynamic_stake_requirement (1/2) 50 20
        ≤ calculate_dynamic_stake_requirement (1/2) 80 20 :=
  dynamic_stake_requirement_spec (1/2) (3/4) 50 80 20
    (by norm_num) (by norm_num) (by norm_num) (by norm_num)

/-- Claim C9: the free function `calculate_dynamic_stake_requirement`
(validator.rs) agrees with the method
`PoVERAValidator::calculate_dynamic_stake_requirement` (consensus.rs) on
every validator state: utilization and validator count are read from the
network metrics, the base stake from the configured chain spec. -/
theorem dynamic_stake_implementations_agree (v : PoVERAValidator) :
    calculate_dynamic_stake_requirement v.network_metrics.network_utilization
        v.network_metrics.active_validators
        v.config.network.chain_spec.min_validator_stake
      = v.calculate_dynamic_stake_requirement := rfl

/-! ### Performance bonus and uptime -/

/-- Spec formula: `block_accuracy = proposed / (proposed + missed)`, defined
as 1.0 when the denominator is zero (spec §4.4). -/
def spec_block_accuracy (proposed missed : ℕ) : ℚ :=
  if proposed + missed = 0 then 1
  else (proposed : ℚ) / ((proposed + missed : ℕ) : ℚ)

/-- Spec tiers: score ≥ 0.95 → 20%, ≥ 0.90 → 15%, ≥ 0.85 → 10%,
≥ 0.75 → 5%, else 0% (spec §4.4). -/
def spec_tier_multiplier (score : ℚ) : ℚ :=
  if score ≥ 95 / 100 then 20 / 100
  else if score ≥ 90 / 100 then 15 / 100
  else if score ≥ 85 / 100 then 10 / 100
  else if score ≥ 75 / 100 then 5 / 100
  else 0

/-- Spec formula: the performance bonus is the base reward times the tier
multiplier of `performance_score = uptime_fraction × block_accuracy`
(spec §4.4); truncation to whole reward units is forced by the `u128`
return type. -/
def spec_performance_bonus (uptime_percentage : ℚ) (proposed missed base : ℕ) : ℕ :=
  ratToNat ((base : ℚ)
    * spec_tier_multiplier ((uptime_percentage / 100) * spec_block_accuracy proposed missed))

theorem uptime_percentage_of_no_downtime (v : PoVERAValidator)
    (h : v.performance_metrics.total_downtime = 0) :
    v.calculate_uptime_percentage = 100 := by
  unfold PoVERAValidator.calculate_uptime_percentage
  rcases Nat.eq_zero_or_pos v.performance_metrics.total_uptime with h0 | h0
  · simp [h, h0]
  · have hne : v.performance_metrics.total_uptime ≠ 0 := by omega
    have hq : (v.performance_metrics.total_uptime : ℚ) ≠ 0 := by exact_mod_cast hne
    simp [h, hne, div_self hq]

theorem performance_bonus_eq_spec_formula (v : PoVERAValidator) (base : ℕ) :
    v.calculate_performance_bonus base
      = spec_performance_bonus v.calculate_uptime_percentage
          v.performance_metrics.blocks_proposed v.performance_metrics.blocks_missed base := by
  unfold PoVERAValidator.calculate_performance_bonus spec_performance_bonus
    spec_block_accuracy
  rcases Nat.eq_zero_or_pos
      (v.performance_metrics.blocks_proposed + v.performance_metrics.blocks_missed) with h | h
  · simp [h, spec_tier_multiplier, mul_ite]
  · have h' : v.performance_metrics.blocks_proposed + v.performance_metrics.blocks_missed ≠ 0 := by
      omega
    simp [h, h', spec_tier_multiplier, mul_ite]

/-- Claim C2: the performance bonus is the base reward times the tier
multiplier of `performance_score = uptime_fraction × block_accuracy`, where
`block_accuracy = proposed / (proposed + missed)` and is 1 when the
denominator is zero; with full uptime, `(proposed=95, missed=5)` lands in
the 20% tier and `(proposed=80, missed=20)` in the 5% tier. -/
theorem performance_bonus_spec (v : PoVERAValidator) (base_reward : ℕ) :
    v.calculate_performance_bonus base_reward
      = spec_performance_bonus v.calculate_uptime_percentage
          v.performance_metrics.blocks_proposed v.performance_metrics.blocks_missed base_reward
    ∧ (v.performance_metrics.total_downtime = 0 →
        v.performance_metrics.blocks_proposed = 95 →
        v.performance_metrics.blocks_missed = 5 →
        v.calculate_performance_bonus base_reward = ratToNat ((base_reward : ℚ) * (20 / 100)))
    ∧ (v.performance_metrics.total_downtime = 0 →
        v.performance_metrics.blocks_proposed = 80 →
        v.performance_metrics.blocks_missed = 20 →
        v.calculate_performance_bonus base_reward = ratToNat ((base_reward : ℚ) * (5 / 100)))
    ∧ (v.performance_metrics.blocks_proposed + v.performance_metrics.blocks_missed = 0 →
        spec_block_accuracy v.performance_metrics.blocks_proposed
          v.performance_metrics.blocks_missed = 1) := by
  refine ⟨performance_bonus_eq_spec_formula v base_reward, ?_, ?_, ?_⟩
  · intro hd hp hm
    rw [performance_bonus_eq_spec_formula, uptime_percentage_of_no_downtime v hd, hp, hm]
    norm_num [spec_performance_bonus, spec_block_accuracy, spec_tier_multiplier]
  · intro hd hp hm
    rw [performance_bonus_eq_spec_formula, uptime_percentage_of_no_downtime v hd, hp, hm]
    norm_num [spec_performance_bonus, spec_block_accuracy, spec_tier_multiplier]
  · intro h
    simp [spec_block_accuracy, h]

/-! ### Sample values used by the witnesses -/

/-- A concrete configuration (the devnet profile values). -/
def sampleConfig : ValidatorConfig :=
  { data_dir := "~/.omne-nexus"
    network :=
      { name := "devnet", id := 3
        genesis_hash := "0x2222222222222222222222222222222222222222222222222222222222222222"
        chain_spec :=
          { commerce_block_time := 3, security_block_time := 60
            min_validator_stake := 1, max_validators := 10 } }
    p2p :=
      { port := 30303, max_peers := 50, bootstrap_peers := ["/ip4/127.0.0.1/tcp/30303"]
        connection_timeout := 10, enable_mdns := true, enable_kad := true }
    rpc :=
      { port := 9944, bind_address := "127.0.0.1", enable_http := true, enable_ws := true
        max_connections := 100 }
    validator :=
      { is_validator := false, validator_stake := 20, validator_key_path := none
        network_key_path := none, auto_restake := true
        slashing_protection :=
          { enabled := true, min_source_epoch_diff := 1, min_target_epoch_diff := 1 } }
    oon :=
      { enable_oon := false, max_concurrent_jobs := 4, resource_allocation := 1/2
        supported_services := ["ai-inference", "scientific-computation", "data-processing"]
        revenue_share_percentage := 4/5 }
    omp :=
      { enable_omp := false, preferred_tiers := [2, 3], max_storage_gb := 100
        pricing_per_gb_quar := 50000000000000000
        ipfs_config :=
          { api_endpoint := "http://127.0.0.1:5001"
            gateway_endpoint := "http://127.0.0.1:8080"
            enable_local_node := true, pinning_services := [] } }
    orc20_relayer :=
      { enable_relayer := false, max_concurrent_tx := 100, gas_price_multiplier := 11/10
        min_balance_threshold := 1000000000000000000, supported_tokens := [] }
    paymaster :=
      { enable_paymaster := false, daily_sponsorship_budget := 100000000000000000000
        sponsorship_policies := ["token_holder_benefits", "freemium_model"]
        max_gas_per_tx := 500000, max_tx_per_user_per_hour := 10 } }

/-- Concrete performance metrics with the given uptime, downtime and block
counters and all service counters zero. -/
def sampleMetrics (up down proposed missed : ℕ) : PerformanceMetrics :=
  { total_uptime := up, total_downtime := down, blocks_proposed := proposed
    blocks_missed := missed, avg_block_time := 3, oon_jobs_completed := 0
    omp_requests_served := 0, orc20_txs_relayed := 0, paymaster_txs_sponsored := 0
    total_revenue_generated := 0, revenue_by_service := ⟨0, 0, 0, 0⟩, start_time := 0 }

/-- Concrete network metrics at the given utilization and validator count. -/
def sampleNetworkMetricsAt (u : ℚ) (c : ℕ) : NetworkMetrics :=
  { network_utilization := u, active_validators := c, dynamic_stake_requirement := 1
    network_health := 95, last_update := 0 }

/-- The zeroed initial consensus state. -/
def sampleState : ConsensusState := ⟨0, 0, 0, 0, false, 20, 0, 0⟩

/-- A concrete validator built from the sample parts. -/
def sampleValidatorAt (up down proposed missed : ℕ) (u : ℚ) (c : ℕ) : PoVERAValidator :=
  { config := sampleConfig, state := sampleState
    performance_metrics := sampleMetrics up down proposed missed
    network_metrics := sampleNetworkMetricsAt u c }

/-- Witness for C2: a validator with full uptime, 95 proposed and 5 missed
blocks earns the 20% bonus on a base reward of 1000. -/
theorem performance_bonus_spec_witness :
    (sampleValidatorAt 3600 0 95 5 (1/2) 50).calculate_performance_bonus 1000
        = ratToNat ((1000 : ℚ) * (20 / 100))
    ∧ ratToNat ((1000 : ℚ) * (20 / 100)) = 200 :=
  ⟨(performance_bonus_spec (sampleValidatorAt 3600 0 95 5 (1/2) 50) 1000).2.1 rfl rfl rfl,
   by
    have h : ((1000 : ℚ) * (20 / 100)) = ((200 : ℕ) : ℚ) := by norm_num
    rw [ratToNat, h, Int.floor_natCast]
    simp⟩

/-! ### Uptime percentage (C3) -/

/-- Spec formula: `uptime / (uptime + downtime)` as a percentage, 100 when
no time has been sampled (spec §4.5). -/
def spec_uptime_percentage (uptime downtime : ℕ) : ℚ :=
  if uptime + downtime = 0 then 100
  else ((uptime : ℚ) / ((uptime + downtime : ℕ) : ℚ)) * 100

/-- Claim C3: the uptime percentage equals `uptime / (uptime + downtime)`
as a percentage and is 100 when nothing has been sampled; the utils helper
`calculate_uptime` agrees: `calculate_uptime 0 0 = 100`,
`calculate_uptime 3600 360 = 90`, and on consistent inputs it matches the
consensus method. -/
theorem uptime_percentage_spec :
    (∀ v : PoVERAValidator, v.calculate_uptime_percentage
        = spec_uptime_percentage v.performance_metrics.total_uptime
            v.performance_metrics.total_downtime)
    ∧ (∀ v : PoVERAValidator, v.performance_metrics.total_uptime = 0 →
        v.performance_metrics.total_downtime = 0 → v.calculate_uptime_percentage = 100)
    ∧ calculate_uptime 0 0 = 100
    ∧ calculate_uptime 3600 360 = 90
    ∧ (∀ total down : ℕ, down ≤ total → ∀ v : PoVERAValidator,
        v.performance_metrics.total_uptime = total - down →
        v.performance_metrics.total_downtime = down →
        calculate_uptime (total : ℚ) (down : ℚ) = v.calculate_uptime_percentage) := by
  refine ⟨fun v => rfl, ?_, ?_, ?_, ?_⟩
  · intro v h0 h1
    simp [PoVERAValidator.calculate_uptime_percentage, h0, h1]
  · norm_num [calculate_uptime]
  · norm_num [calculate_uptime]
  · intro total down hle v hup hdown
    unfold calculate_uptime PoVERAValidator.calculate_uptime_percentage
    rw [hup, hdown, Nat.sub_add_cancel hle]
    rcases Nat.eq_zero_or_pos total with h0 | h0
    · have hd0 : down = 0 := by omega
      subst h0
      simp [hd0]
    · have hne : total ≠ 0 := by omega
      have hq : (total : ℚ) ≠ 0 := by exact_mod_cast hne
      have hcast : ((total - down : ℕ) : ℚ) = (total : ℚ) - (down : ℚ) :=
        Nat.cast_sub hle
      have hnonneg : (0 : ℚ) ≤ (total : ℚ) - (down : ℚ) := by
        have : (down : ℚ) ≤ (total : ℚ) := by exact_mod_cast hle
        linarith
      rw [if_neg hq, if_neg hne, hcast, max_eq_left hnonneg]

/-- Witness for C3: a fresh node reports 100% uptime, and one hour with six
minutes of downtime reports 90%. -/
theorem uptime_percentage_spec_witness :
    PoVERAValidator.calculate_uptime_percentage (sampleValidatorAt 0 0 0 0 (1/2) 50) = 100
    ∧ calculate_uptime 3600 360
        = PoVERAValidator.calculate_uptime_percentage (sampleValidatorAt 3240 360 0 0 (1/2) 50) :=
  ⟨uptime_percentage_spec.2.1 _ rfl rfl,
   uptime_percentage_spec.2.2.2.2 3600 360 (by norm_num) _ rfl rfl⟩

/-! ### Network health (C6) -/

theorem uptime_percentage_bounds (v : PoVERAValidator) :
    0 ≤ v.calculate_uptime_percentage ∧ v.calculate_uptime_percentage ≤ 100 := by
  rcases Nat.eq_zero_or_pos
      (v.performance_metrics.total_uptime + v.performance_metrics.total_downtime) with h | h
  · simp [PoVERAValidator.calculate_uptime_percentage, h]
  · have hne : v.performance_metrics.total_uptime + v.performance_metrics.total_downtime ≠ 0 := by
      omega
    have hq : (0:ℚ) <
        ((v.performance_metrics.total_uptime + v.performance_metrics.total_downtime : ℕ) : ℚ) := by
      exact_mod_cast h
    simp only [PoVERAValidator.calculate_uptime_percentage, if_neg hne]
    constructor
    · positivity
    · have hle : (v.performance_metrics.total_uptime : ℚ)
          ≤ ((v.performance_metrics.total_uptime + v.performance_metrics.total_downtime : ℕ) : ℚ) := by
        exact_mod_cast Nat.le_add_right _ _
      have hdiv : (v.performance_metrics.total_uptime : ℚ)
          / ((v.performance_metrics.total_uptime + v.performance_metrics.total_downtime : ℕ) : ℚ)
          ≤ 1 := (div_le_one hq).mpr hle
      linarith

/-- Spec formula: mean of uptime percentage, the validator-count score
(100 when at least 21 validators, else 50) and the utilization score
`(1 − |utilization − 0.5|) × 100` (spec §4.5). -/
def spec_network_health (uptime_percentage : ℚ) (active_validators : ℕ) (utilization : ℚ) : ℚ :=
  (uptime_percentage + (if active_validators ≥ 21 then (100 : ℚ) else 50)
    + (1 - |utilization - 1/2|) * 100) / 3

/-- Claim C6: network health is the arithmetic mean of the uptime
percentage, the validator-count score and the utilization score; for
utilization in `[0,1]` it lies in `[0,100]`, and it equals 100 exactly when
utilization is 1/2, at least 21 validators are active, and the uptime
percentage is 100. -/
theorem network_health_spec (v : PoVERAValidator)
    (h0 : 0 ≤ v.network_metrics.network_utilization)
    (h1 : v.network_metrics.network_utilization ≤ 1) :
    v.calculate_network_health
      = spec_network_health v.calculate_uptime_percentage
          v.network_metrics.active_validators v.network_metrics.network_utilization
    ∧ 0 ≤ v.calculate_network_health
    ∧ v.calculate_network_health ≤ 100
    ∧ (v.calculate_network_health = 100 ↔
        (v.network_metrics.network_utilization = 1/2
          ∧ 21 ≤ v.network_metrics.active_validators
          ∧ v.calculate_uptime_percentage = 100)) := by
  obtain ⟨hU0, hU100⟩ := uptime_percentage_bounds v
  have habs0 : (0:ℚ) ≤ |v.network_metrics.network_utilization - 1/2| := abs_nonneg _
  have habs : |v.network_metrics.network_utilization - 1/2| ≤ 1/2 :=
    abs_le.mpr ⟨by linarith, by linarith⟩
  have hC_eq : (1 - |v.network_metrics.network_utilization - 1/2|) * 100
      = 100 - 100 * |v.network_metrics.network_utilization - 1/2| := by ring
  refine ⟨rfl, ?_, ?_, ?_⟩
  · simp only [PoVERAValidator.calculate_network_health, hC_eq]
    by_cases hav : v.network_metrics.active_validators ≥ 21 <;> simp only [hav, if_true, if_false,
      ite_true, ite_false] <;> linarith
  · simp only [PoVERAValidator.calculate_network_health, hC_eq]
    by_cases hav : v.network_metrics.active_validators ≥ 21 <;> simp only [hav, if_true, if_false,
      ite_true, ite_false] <;> linarith
  · simp only [PoVERAValidator.calculate_network_health, hC_eq]
    by_cases hav : v.network_metrics.active_validators ≥ 21
    · rw [if_pos hav]
      constructor
      · intro h
        have ha0 : |v.network_metrics.network_utilization - 1/2| = 0 := by linarith
        have hu : v.network_metrics.network_utilization - 1/2 = 0 := abs_eq_zero.mp ha0
        exact ⟨by linarith, hav, by linarith⟩
      · rintro ⟨hu, -, hU⟩
        rw [hU, hu]
        norm_num
    · rw [if_neg hav]
      constructor
      · intro h
        linarith
      · rintro ⟨-, hav', -⟩
        exact absurd hav' hav


/-- Witness for C6 at a validator with full uptime, utilization 1/2 and 50
active validators. -/
theorem network_health_spec_witness :
    0 ≤ (sampleValidatorAt 3600 0 0 0 (1/2) 50).calculate_network_health
    ∧ (sampleValidatorAt 3600 0 0 0 (1/2) 50).calculate_network_health ≤ 100 :=
  ⟨(network_health_spec (sampleValidatorAt 3600 0 0 0 (1/2) 50)
      (by norm_num [sampleValidatorAt, sampleNetworkMetricsAt])
      (by norm_num [sampleValidatorAt, sampleNetworkMetricsAt])).2.1,
   (network_health_spec (sampleValidatorAt 3600 0 0 0 (1/2) 50)
      (by norm_num [sampleValidatorAt, sampleNetworkMetricsAt])
      (by norm_num [sampleValidatorAt, sampleNetworkMetricsAt])).2.2.1⟩

/-! ### Configuration construction and the start-up path
(src/config.rs `new_for_network`, src/main.rs `start_validator`,
src/validator.rs `ValidatorNode::new`) -/

/-- `ValidatorConfig::new_for_network` (config.rs lines 228-350): the three
built-in network profiles; any other name is an error. -/
def ValidatorConfig.new_for_network (network_name : String) : Except String ValidatorConfig :=
  let params? : Option (ℕ × String × ChainSpec × List String) :=
    if network_name = "mainnet" then
      some (1, "0x0000000000000000000000000000000000000000000000000000000000000000",
        { commerce_block_time := 3, security_block_time := 540
          min_validator_stake := 20, max_validators := 1000 },
        ["/dns4/mainnet-boot1.omne.network/tcp/30303",
         "/dns4/mainnet-boot2.omne.network/tcp/30303"])
    else if network_name = "testnet" then
      some (2, "0x1111111111111111111111111111111111111111111111111111111111111111",
        { commerce_block_time := 3, security_block_time := 540
          min_validator_stake := 10, max_validators := 100 },
        ["/dns4/testnet-boot1.omne.network/tcp/30303",
         "/dns4/testnet-boot2.omne.network/tcp/30303"])
    else if network_name = "devnet" then
      some (3, "0x2222222222222222222222222222222222222222222222222222222222222222",
        { commerce_block_time := 3, security_block_time := 60
          min_validator_stake := 1, max_validators := 10 },
        ["/ip4/127.0.0.1/tcp/30303"])
    else none
  match params? with
  | none => Except.error ("Unknown network: " ++ network_name)
  | some (network_id, genesis_hash, chain_spec, bootstrap_peers) =>
    Except.ok
      { data_dir := "~/.omne-nexus"
        network :=
          { name := network_name, id := network_id, genesis_hash := genesis_hash
            chain_spec := chain_spec }
        p2p :=
          { port := 30303, max_peers := 50, bootstrap_peers := bootstrap_peers
            connection_timeout := 10, enable_mdns := network_name == "devnet"
            enable_kad := true }
        rpc :=
          { port := 9944, bind_address := "127.0.0.1", enable_http := true
            enable_ws := true, max_connections := 100 }
        validator :=
          { is_validator := false, validator_stake := 20, validator_key_path := none
            network_key_path := none, auto_restake := true
            slashing_protection :=
              { enabled := true, min_source_epoch_diff := 1, min_target_epoch_diff := 1 } }
        oon :=
          { enable_oon := false, max_concurrent_jobs := 4, resource_allocation := 1/2
            supported_services := ["ai-inference", "scientific-computation", "data-processing"]
            revenue_share_percentage := 4/5 }
        omp :=
          { enable_omp := false, preferred_tiers := [2, 3], max_storage_gb := 100
            pricing_per_gb_quar := 50000000000000000
            ipfs_config :=
              { api_endpoint := "http://127.0.0.1:5001"
                gateway_endpoint := "http://127.0.0.1:8080"
                enable_local_node := true, pinning_services := [] } }
        orc20_relayer :=
          { enable_relayer := false, max_concurrent_tx := 100, gas_price_multiplier := 11/10
            min_balance_threshold := 1000000000000000000, supported_tokens := [] }
        paymaster :=
          { enable_paymaster := false, daily_sponsorship_budget := 100000000000000000000
            sponsorship_policies := ["token_holder_benefits", "freemium_model"]
            max_gas_per_tx := 500000, max_tx_per_user_per_hour := 10 } }

/-- The CLI override block of `start_validator` (main.rs lines 220-230). -/
def apply_cli_overrides (cfg : ValidatorConfig) (data_dir : String) (is_validator : Bool)
    (stake p2p_port rpc_port : ℕ) (bootstrap_peers : Option String) (enable_oon : Bool) :
    ValidatorConfig :=
  let cfg :=
    { cfg with
        data_dir := data_dir
        validator := { cfg.validator with is_validator := is_validator, validator_stake := stake }
        p2p := { cfg.p2p with port := p2p_port }
        rpc := { cfg.rpc with port := rpc_port }
        oon := { cfg.oon with enable_oon := enable_oon } }
  match bootstrap_peers with
  | some peers =>
      { cfg with
          p2p := { cfg.p2p with
            bootstrap_peers := (peers.splitOn ",").map (fun s => s.trim) } }
  | none => cfg

/-- The dynamic-stake admission check of `ValidatorNode::new` (validator.rs
lines 39-60): with the default assumptions of 50% network utilization and 50
validators, a configured validator whose stake is below the dynamic minimum
is rejected.  (The surrounding constructor also performs directory and
subsystem initialization, which is I/O and cannot fail the stake check.) -/
def ValidatorNode.new_stake_check (config : ValidatorConfig) : Except String Unit :=
  if config.validator.is_validator then
    let network_utilization : ℚ := 1/2
    let validator_count : ℕ := 50
    let required_stake := calculate_dynamic_stake_requirement
      network_utilization validator_count config.network.chain_spec.min_validator_stake
    if config.validator.validator_stake < required_stake then
      Except.error "Validator stake is below dynamic minimum required"
    else Except.ok ()
  else Except.ok ()

/-- The body of `start_validator` (main.rs lines 197-248) after the
configuration has been obtained: apply the CLI overrides, enforce the static
minimum stake of 20, then run the `ValidatorNode::new` admission check.  On
success the node (and with it the consensus scheduler) is started with the
returned configuration; an error aborts start-up before the scheduler runs. -/
def start_validator_with (cfg₀ : ValidatorConfig) (data_dir : String) (is_validator : Bool)
    (stake p2p_port rpc_port : ℕ) (bootstrap_peers : Option String) (enable_oon : Bool) :
    Except String ValidatorConfig :=
  let config := apply_cli_overrides cfg₀ data_dir is_validator stake p2p_port rpc_port
    bootstrap_peers enable_oon
  if is_validator ∧ stake < 20 then
    Except.error "Minimum validator stake is 20 OGT"
  else
    match ValidatorNode.new_stake_check config with
    | Except.error e => Except.error e
    | Except.ok _ => Except.ok config

/-- `start_validator` (main.rs) on the fresh-configuration path: build the
profile for the requested network, then run the start-up pipeline. -/
def start_validator (data_dir : String) (is_validator : Bool) (stake : ℕ) (network : String)
    (p2p_port rpc_port : ℕ) (bootstrap_peers : Option String) (enable_oon : Bool) :
    Except String ValidatorConfig :=
  match ValidatorConfig.new_for_network network with
  | Except.error e => Except.error e
  | Except.ok cfg₀ =>
      start_validator_with cfg₀ data_dir is_validator stake p2p_port rpc_port
        bootstrap_peers enable_oon

/-- Claim C4: configuration errors are fatal at start-up.  Every network
name other than mainnet/testnet/devnet makes `new_for_network` return an
error, and every start attempt with validator mode enabled and stake below
the static minimum (20) or below the dynamic minimum returns an error, so
the consensus scheduler (started only on the `Except.ok` path) never
runs. -/
theorem config_errors_fatal_at_startup :
    (∀ name : String, name ≠ "mainnet" → name ≠ "testnet" → name ≠ "devnet" →
      ∃ e, ValidatorConfig.new_for_network name = Except.error e)
    ∧ (∀ (cfg : ValidatorConfig) (dd : String) (stake p2p_port rpc_port : ℕ)
        (bp : Option String) (eo : Bool),
        (stake < 20
          ∨ stake < calculate_dynamic_stake_requirement (1/2) 50
              cfg.network.chain_spec.min_validator_stake) →
        ∃ e, start_validator_with cfg dd true stake p2p_port rpc_port bp eo
          = Except.error e) := by
  constructor
  · intro name h1 h2 h3
    refine ⟨"Unknown network: " ++ name, ?_⟩
    simp [ValidatorConfig.new_for_network, h1, h2, h3]
  · intro cfg dd stake pp rp bp eo h
    rcases Nat.lt_or_ge stake 20 with h20 | h20
    · refine ⟨"Minimum validator stake is 20 OGT", ?_⟩
      simp [start_validator_with, h20]
    · have hdyn : stake < calculate_dynamic_stake_requirement (1/2) 50
          cfg.network.chain_spec.min_validator_stake := by
        rcases h with h | h
        · omega
        · exact h
      refine ⟨"Validator stake is below dynamic minimum required", ?_⟩
      have hn20 : ¬ stake < 20 := by omega
      have hdyn2 : stake < calculate_dynamic_stake_requirement 2⁻¹ 50
          cfg.network.chain_spec.min_validator_stake := by
        rw [show (2⁻¹ : ℚ) = 1/2 by norm_num]
        exact hdyn
      rcases bp with _ | peers <;>
        simp [start_validator_with, hn20, ValidatorNode.new_stake_check,
          apply_cli_overrides, hdyn, hdyn2]

/-- Witness for C4: an unknown network name is rejected, and a declared
stake of 0 with validator mode on is rejected. -/
theorem config_errors_fatal_at_startup_witness :
    (∃ e, ValidatorConfig.new_for_network "localnet" = Except.error e)
    ∧ (∃ e, start_validator_with sampleConfig "~/.omne-nexus" true 0 30303 9944 none false
        = Except.error e) :=
  ⟨config_errors_fatal_at_startup.1 "localnet" (by decide) (by decide) (by decide),
   config_errors_fatal_at_startup.2 sampleConfig "~/.omne-nexus" 0 30303 9944 none false
     (Or.inl (by norm_num))⟩

/-- Claim C8: the devnet profile has commerce block time 3s, security block
time 60s, minimum validator stake 1 and at most 10 validators; starting it
with validator mode on and stake 0 fails before the scheduler starts. -/
theorem devnet_profile_spec :
    ((ValidatorConfig.new_for_network "devnet").map fun c =>
        (c.network.chain_spec.commerce_block_time, c.network.chain_spec.security_block_time,
         c.network.chain_spec.min_validator_stake, c.network.chain_spec.max_validators))
      = Except.ok (3, 60, 1, 10)
    ∧ ∃ e, start_validator "~/.omne-nexus" true 0 "devnet" 30303 9944 none false
        = Except.error e :=
  ⟨rfl, "Minimum validator stake is 20 OGT", rfl⟩

/-- Claim C10: the CLI start path enforces a fixed static minimum of 20
stake units: for every network name (and for every configuration, whatever
its configured `min_validator_stake` — in particular devnet, whose
configured minimum is 1), validator mode with stake below 20 is rejected
with the static error. -/
theorem cli_static_min_stake_spec :
    ((ValidatorConfig.new_for_network "devnet").map
        (fun c => c.network.chain_spec.min_validator_stake) = Except.ok 1)
    ∧ (∀ (network dd : String) (stake p2p_port rpc_port : ℕ) (bp : Option String) (eo : Bool),
        stake < 20 →
        ∃ e, start_validator dd true stake network p2p_port rpc_port bp eo = Except.error e)
    ∧ (∀ (cfg : ValidatorConfig) (dd : String) (stake p2p_port rpc_port : ℕ)
        (bp : Option String) (eo : Bool), stake < 20 →
        start_validator_with cfg dd true stake p2p_port rpc_port bp eo
          = Except.error "Minimum validator stake is 20 OGT") := by
  refine ⟨rfl, ?_, ?_⟩
  · intro network dd stake pp rp bp eo h
    unfold start_validator
    cases hn : ValidatorConfig.new_for_network network with
    | error e => exact ⟨e, rfl⟩
    | ok cfg =>
        exact ⟨"Minimum validator stake is 20 OGT", by simp [start_validator_with, h]⟩
  · intro cfg dd stake pp rp bp eo h
    simp [start_validator_with, h]

/-- Witness for C10 at stake 19 on devnet (whose configured minimum is 1). -/
theorem cli_static_min_stake_spec_witness :
    start_validator_with sampleConfig "~/.omne-nexus" true 19 30303 9944 none false
      = Except.error "Minimum validator stake is 20 OGT"
    ∧ ∃ e, start_validator "~/.omne-nexus" true 19 "devnet" 30303 9944 none false
        = Except.error e :=
  ⟨cli_static_min_stake_spec.2.2 sampleConfig "~/.omne-nexus" 19 30303 9944 none false
      (by norm_num),
   cli_static_min_stake_spec.2.1 "devnet" "~/.omne-nexus" 19 30303 9944 none false
      (by norm_num)⟩

/-! ### Gossip topics (src/p2p.rs) -/

/-- The four gossip topic strings built and subscribed by
`P2PNetwork::create_gossipsub_behaviour` (p2p.rs lines 190-206); the
network id is rendered in decimal by the format string. -/
def gossip_topics (network_id : ℕ) : List String :=
  ["omne/consensus/commerce/" ++ Nat.repr network_id,
   "omne/consensus/security/" ++ Nat.repr network_id,
   "omne/transactions/" ++ Nat.repr network_id,
   "omne/attestations/" ++ Nat.repr network_id]

/-- Number of `'/'`-separated segments of a topic string. -/
def segmentCount (s : String) : ℕ := s.data.count '/' + 1

/-- The decimal digit characters of a natural number, most significant
first; agrees with core `Nat.repr` (proved below). -/
def decChars (n : ℕ) : List Char :=
  if h : n < 10 then [Nat.digitChar n]
  else decChars (n / 10) ++ [Nat.digitChar (n % 10)]
decreasing_by exact Nat.div_lt_self (by omega) (by omega)

theorem toDigitsCore_eq_decChars :
    ∀ (fuel n : ℕ) (ds : List Char), n < 10 ^ (fuel + 1) →
      Nat.toDigitsCore 10 (fuel + 1) n ds = decChars n ++ ds := by
  intro fuel
  induction fuel with
  | zero =>
      intro n ds h
      have h10 : n < 10 := by simpa using h
      have hdiv : n / 10 = 0 := Nat.div_eq_of_lt h10
      have hmod : n % 10 = n := Nat.mod_eq_of_lt h10
      simp [Nat.toDigitsCore, hdiv, hmod, decChars, h10]
  | succ fuel ih =>
      intro n ds h
      by_cases h10 : n < 10
      · have hdiv : n / 10 = 0 := Nat.div_eq_of_lt h10
        have hmod : n % 10 = n := Nat.mod_eq_of_lt h10
        simp [Nat.toDigitsCore, hdiv, hmod, decChars, h10]
      · have hdiv : ¬ n / 10 = 0 := by
          intro h0
          exact h10 (by omega)
        have hlt : n / 10 < 10 ^ (fuel + 1) := by
          rw [Nat.div_lt_iff_lt_mul (by norm_num : 0 < 10)]
          calc n < 10 ^ (fuel + 1 + 1) := h
          _ = 10 ^ (fuel + 1) * 10 := by rw [pow_succ]
        have hstep : Nat.toDigitsCore 10 (fuel + 1 + 1) n ds
            = Nat.toDigitsCore 10 (fuel + 1) (n / 10) (Nat.digitChar (n % 10) :: ds) := by
          simp [Nat.toDigitsCore, hdiv]
        rw [hstep, ih (n / 10) _ hlt]
        conv_rhs => rw [decChars]
        simp [h10, List.append_assoc]

theorem repr_eq_decChars (n : ℕ) : Nat.repr n = (decChars n).asString := by
  have h : n < 10 ^ (n + 1) := by
    calc n < 10 ^ n := Nat.lt_pow_self (by norm_num) n
    _ ≤ 10 ^ (n + 1) := Nat.pow_le_pow_right (by norm_num) (Nat.le_succ n)
  unfold Nat.repr Nat.toDigits
  rw [toDigitsCore_eq_decChars n n [] h, List.append_nil]

/-- Numeric value of a decimal digit character. -/
def digitVal (c : Char) : ℕ := c.toNat - 48

/-- Numeric value of a most-significant-first digit string. -/
def valOfDigits (l : List Char) : ℕ := l.foldl (fun a c => 10 * a + digitVal c) 0

theorem valOfDigits_append_singleton (l : List Char) (c : Char) :
    valOfDigits (l ++ [c]) = 10 * valOfDigits l + digitVal c := by
  simp [valOfDigits, List.foldl_append]

theorem digitVal_digitChar {k : ℕ} (h : k < 10) : digitVal (Nat.digitChar k) = k := by
  interval_cases k <;> decide

theorem digitChar_ne_slash {k : ℕ} (h : k < 10) : Nat.digitChar k ≠ '/' := by
  interval_cases k <;> decide

theorem valOfDigits_decChars (n : ℕ) : valOfDigits (decChars n) = n := by
  induction n using Nat.strong_induction_on with
  | _ n ih =>
    by_cases h : n < 10
    · simp [decChars, h, valOfDigits, digitVal_digitChar h]
    · have hrec := ih (n / 10) (Nat.div_lt_self (by omega) (by omega))
      have hm : n % 10 < 10 := Nat.mod_lt _ (by norm_num)
      rw [decChars, dif_neg h, valOfDigits_append_singleton, hrec, digitVal_digitChar hm]
      omega

theorem repr_injective : Function.Injective Nat.repr := by
  intro m n h
  rw [repr_eq_decChars, repr_eq_decChars] at h
  have hdata : decChars m = decChars n := by
    have := congrArg String.data h
    simpa [List.asString] using this
  have := congrArg valOfDigits hdata
  rwa [valOfDigits_decChars, valOfDigits_decChars] at this

theorem decChars_ne_slash (n : ℕ) : ∀ c ∈ decChars n, c ≠ '/' := by
  induction n using Nat.strong_induction_on with
  | _ n ih =>
    by_cases h : n < 10
    · intro c hc
      simp [decChars, h] at hc
      subst hc
      exact digitChar_ne_slash h
    · intro c hc
      rw [decChars, dif_neg h] at hc
      rcases List.mem_append.mp hc with hc | hc
      · exact ih (n / 10) (Nat.div_lt_self (by omega) (by omega)) c hc
      · rw [List.mem_singleton] at hc
        subst hc
        exact digitChar_ne_slash (Nat.mod_lt _ (by norm_num))

theorem count_slash_repr (n : ℕ) : (Nat.repr n).data.count '/' = 0 := by
  rw [repr_eq_decChars]
  have hmem : '/' ∉ decChars n := fun h => (decChars_ne_slash n '/' h) rfl
  simpa [List.asString] using List.count_eq_zero.mpr hmem

theorem segmentCount_append_repr (p : String) (n : ℕ) :
    segmentCount (p ++ Nat.repr n) = p.data.count '/' + 1 := by
  unfold segmentCount
  rw [String.data_append, List.count_append, count_slash_repr]

theorem takeWhile_append_cons (pred : Char → Bool) (l₁ : List Char) (c : Char) (l₂ : List Char)
    (h₁ : ∀ x ∈ l₁, pred x = true) (hc : pred c = false) :
    (l₁ ++ c :: l₂).takeWhile pred = l₁ := by
  induction l₁ with
  | nil => simp [List.takeWhile_cons, hc]
  | cons x xs ihx =>
      have hx : pred x = true := h₁ x (by simp)
      simp [List.takeWhile_cons, hx, ihx (fun y hy => h₁ y (by simp [hy]))]

theorem append_repr_inj (p₁ p₂ : String) (n₁ n₂ : ℕ)
    (hp₁ : ∃ q, p₁.data = q ++ ['/']) (hp₂ : ∃ q, p₂.data = q ++ ['/'])
    (h : p₁ ++ Nat.repr n₁ = p₂ ++ Nat.repr n₂) : n₁ = n₂ := by
  obtain ⟨q₁, hq₁⟩ := hp₁
  obtain ⟨q₂, hq₂⟩ := hp₂
  have hd : p₁.data ++ decChars n₁ = p₂.data ++ decChars n₂ := by
    have := congrArg String.data h
    simpa [String.data_append, repr_eq_decChars, List.asString] using this
  have hrev : (decChars n₁).reverse ++ ('/' :: q₁.reverse)
      = (decChars n₂).reverse ++ ('/' :: q₂.reverse) := by
    have := congrArg List.reverse hd
    simpa [hq₁, hq₂, List.reverse_append] using this
  have hne₁ : ∀ x ∈ (decChars n₁).reverse, (x != '/') = true := by
    intro x hx
    simpa [bne_iff_ne] using decChars_ne_slash n₁ x (List.mem_reverse.mp hx)
  have hne₂ : ∀ x ∈ (decChars n₂).reverse, (x != '/') = true := by
    intro x hx
    simpa [bne_iff_ne] using decChars_ne_slash n₂ x (List.mem_reverse.mp hx)
  have ht₁ := takeWhile_append_cons (fun c => c != '/') (decChars n₁).reverse '/' q₁.reverse
    hne₁ (by simp)
  have ht₂ := takeWhile_append_cons (fun c => c != '/') (decChars n₂).reverse '/' q₂.reverse
    hne₂ (by simp)
  have hrevEq : (decChars n₁).reverse = (decChars n₂).reverse := by
    rw [← ht₁, ← ht₂, hrev]
  have hchars : decChars n₁ = decChars n₂ := by
    simpa using congrArg List.reverse hrevEq
  have := congrArg valOfDigits hchars
  rwa [valOfDigits_decChars, valOfDigits_decChars] at this

theorem append_cancel_right_string (p₁ p₂ r : String) (h : p₁ ++ r = p₂ ++ r) :
    p₁.data = p₂.data := by
  have hd : p₁.data ++ r.data = p₂.data ++ r.data := by
    simpa [String.data_append] using congrArg String.data h
  exact List.append_cancel_right hd

theorem gossip_topics_end_slash (network_id : ℕ) :
    ∀ t ∈ gossip_topics network_id,
      ∃ p, (∃ q, p.data = q ++ ['/']) ∧ t = p ++ Nat.repr network_id := by
  intro t ht
  simp only [gossip_topics, List.mem_cons, List.not_mem_nil, or_false] at ht
  rcases ht with rfl | rfl | rfl | rfl
  · exact ⟨"omne/consensus/commerce/", ⟨"omne/consensus/commerce".data, by decide⟩, rfl⟩
  · exact ⟨"omne/consensus/security/", ⟨"omne/consensus/security".data, by decide⟩, rfl⟩
  · exact ⟨"omne/transactions/", ⟨"omne/transactions".data, by decide⟩, rfl⟩
  · exact ⟨"omne/attestations/", ⟨"omne/attestations".data, by decide⟩, rfl⟩

/-- Counterexample for C7 as stated: the transactions topic of network id 1
is a three-segment string, not a four-segment one. -/
theorem gossip_topic_three_segments :
    "omne/transactions/1" ∈ gossip_topics 1 ∧ segmentCount "omne/transactions/1" ≠ 4 := by
  constructor
  · decide
  · decide

/-- Claim C7 amended: for every network id the router constructs exactly
four topic strings, one per message kind, each ending in the decimal
network id; the two consensus block topics have four `/`-separated segments
while the transactions and attestations topics have three; the four topics
of one network id are pairwise distinct, and every topic of one network id
differs from every topic of a different network id. -/
theorem gossip_topics_spec (id₁ id₂ : ℕ) (hne : id₁ ≠ id₂) :
    (gossip_topics id₁).length = 4
    ∧ (gossip_topics id₁).map segmentCount = [4, 4, 3, 3]
    ∧ (∀ t ∈ gossip_topics id₁, ∃ p, t = p ++ Nat.repr id₁)
    ∧ (gossip_topics id₁).Pairwise (fun a b => a ≠ b)
    ∧ (∀ t₁ ∈ gossip_topics id₁, ∀ t₂ ∈ gossip_topics id₂, t₁ ≠ t₂) := by
  refine ⟨rfl, ?_, ?_, ?_, ?_⟩
  · simp only [gossip_topics, List.map_cons, List.map_nil, segmentCount_append_repr]
    decide
  · intro t ht
    obtain ⟨p, -, rfl⟩ := gossip_topics_end_slash id₁ t ht
    exact ⟨p, rfl⟩
  · unfold gossip_topics
    refine List.Pairwise.cons ?_ (List.Pairwise.cons ?_ (List.Pairwise.cons ?_
      (List.Pairwise.cons (fun b hb => absurd hb (List.not_mem_nil b)) List.Pairwise.nil)))
    all_goals
      intro b hb h
      simp only [List.mem_cons, List.not_mem_nil, or_false] at hb
    · rcases hb with rfl | rfl | rfl <;>
        exact absurd (append_cancel_right_string _ _ _ h) (by decide)
    · rcases hb with rfl | rfl <;>
        exact absurd (append_cancel_right_string _ _ _ h) (by decide)
    · rcases hb with rfl <;>
        exact absurd (append_cancel_right_string _ _ _ h) (by decide)
  · intro t₁ ht₁ t₂ ht₂ heq
    obtain ⟨p₁, hq₁, rfl⟩ := gossip_topics_end_slash id₁ t₁ ht₁
    obtain ⟨p₂, hq₂, rfl⟩ := gossip_topics_end_slash id₂ t₂ ht₂
    exact hne (append_repr_inj p₁ p₂ id₁ id₂ hq₁ hq₂ heq)

/-- Witness for the amended C7 at network ids 1 and 2. -/
theorem gossip_topics_spec_witness :
    (gossip_topics 1).length = 4
    ∧ (gossip_topics 1).map segmentCount = [4, 4, 3, 3]
    ∧ (∀ t₁ ∈ gossip_topics 1, ∀ t₂ ∈ gossip_topics 2, t₁ ≠ t₂) :=
  ⟨(gossip_topics_spec 1 2 (by decide)).1,
   (gossip_topics_spec 1 2 (by decide)).2.1,
   (gossip_topics_spec 1 2 (by decide)).2.2.2.2⟩

/-! ### Gossip message identity and deduplication (src/p2p.rs)

The `message_id_fn` installed by `P2PNetwork::create_gossipsub_behaviour`
(p2p.rs lines 174-180) hashes the message payload with SHA-256 (the `sha2`
crate) and renders the digest in lowercase hex.  SHA-256 itself is embedded
below from FIPS 180-4, over byte lists with `Nat` words reduced mod
`2 ^ 32`. -/

namespace SHA256

/-- Truncation to a 32-bit word. -/
def w32 (n : ℕ) : ℕ := n % 4294967296

/-- Right rotation of a 32-bit word by `r` positions. -/
def rotr (r x : ℕ) : ℕ := x / 2 ^ r + x % 2 ^ r * 2 ^ (32 - r)

/-- Logical right shift by `r` positions. -/
def shr (r x : ℕ) : ℕ := x / 2 ^ r

/-- The choose function `Ch` (FIPS 180-4 §4.1.2). -/
def ch (x y z : ℕ) : ℕ := (x &&& y) ^^^ ((x ^^^ 4294967295) &&& z)

/-- The majority function `Maj` (FIPS 180-4 §4.1.2). -/
def maj (x y z : ℕ) : ℕ := (x &&& y) ^^^ (x &&& z) ^^^ (y &&& z)

/-- `Σ₀` (FIPS 180-4 §4.1.2). -/
def bsig0 (x : ℕ) : ℕ := rotr 2 x ^^^ rotr 13 x ^^^ rotr 22 x

/-- `Σ₁` (FIPS 180-4 §4.1.2). -/
def bsig1 (x : ℕ) : ℕ := rotr 6 x ^^^ rotr 11 x ^^^ rotr 25 x

/-- `σ₀` (FIPS 180-4 §4.1.2). -/
def ssig0 (x : ℕ) : ℕ := rotr 7 x ^^^ rotr 18 x ^^^ shr 3 x

/-- `σ₁` (FIPS 180-4 §4.1.2). -/
def ssig1 (x : ℕ) : ℕ := rotr 17 x ^^^ rotr 19 x ^^^ shr 10 x

/-- Round constants (FIPS 180-4 §4.2.2), written in decimal. -/
def K : List ℕ :=
  [1116352408, 1899447441, 3049323471, 3921009573, 961987163,
   1508970993, 2453635748, 2870763221, 3624381080, 310598401,
   607225278, 1426881987, 1925078388, 2162078206, 2614888103,
   3248222580, 3835390401, 4022224774, 264347078, 604807628,
   770255983, 1249150122, 1555081692, 1996064986, 2554220882,
   2821834349, 2952996808, 3210313671, 3336571891, 3584528711,
   113926993, 338241895, 666307205, 773529912, 1294757372,
   1396182291, 1695183700, 1986661051, 2177026350, 2456956037,
   2730485921, 2820302411, 3259730800, 3345764771, 3516065817,
   3600352804, 4094571909, 275423344, 430227734, 506948616,
   659060556, 883997877, 958139571, 1322822218, 1537002063,
   1747873779, 1955562222, 2024104815, 2227730452, 2361852424,
   2428436474, 2756734187, 3204031479, 3329325298]

/-- Initial hash value (FIPS 180-4 §5.3.3), written in decimal. -/
def H0 : List ℕ :=
  [1779033703, 3144134277, 1013904242, 2773480762,
   1359893119, 2600822924, 528734635, 1541459225]

/-- Big-endian rendering of `n` in `k` bytes. -/
def bytesBE (k n : ℕ) : List ℕ := (List.range k).reverse.map fun i => n / 256 ^ i % 256

/-- Message padding (FIPS 180-4 §5.1.1): a `0x80` byte, zeros up to 56 mod
64, then the bit length in 8 big-endian bytes. -/
def pad (msg : List ℕ) : List ℕ :=
  let zeros := (64 + 55 - msg.length % 64) % 64
  msg ++ [128] ++ List.replicate zeros 0 ++ bytesBE 8 (msg.length * 8)

/-- Group bytes into big-endian 32-bit words. -/
def toWords : List ℕ → List ℕ
  | b0 :: b1 :: b2 :: b3 :: rest => (((b0 * 256 + b1) * 256 + b2) * 256 + b3) :: toWords rest
  | _ => []

/-- Split the word stream into 16-word blocks. -/
def blocks16 (l : List ℕ) : List (List ℕ) :=
  if h : l = [] then [] else l.take 16 :: blocks16 (l.drop 16)
termination_by l.length
decreasing_by
  have hp : 0 < l.length := List.length_pos.mpr h
  simp [List.length_drop]
  omega

/-- Message schedule: extend a 16-word block to 64 words
(FIPS 180-4 §6.2.2 step 1). -/
def schedule (m : List ℕ) : List ℕ :=
  (List.range 48).foldl
    (fun w _ =>
      w ++ [w32 (ssig1 (w.getD (w.length - 2) 0) + w.getD (w.length - 7) 0
        + ssig0 (w.getD (w.length - 15) 0) + w.getD (w.length - 16) 0)])
    m

/-- One compression round (FIPS 180-4 §6.2.2 step 3). -/
def compressionRound (w : List ℕ) (s : ℕ × ℕ × ℕ × ℕ × ℕ × ℕ × ℕ × ℕ) (t : ℕ) :
    ℕ × ℕ × ℕ × ℕ × ℕ × ℕ × ℕ × ℕ :=
  let (a, b, c, d, e, f, g, hh) := s
  let t1 := w32 (hh + bsig1 e + ch e f g + K.getD t 0 + w.getD t 0)
  let t2 := w32 (bsig0 a + maj a b c)
  (w32 (t1 + t2), a, b, c, w32 (d + t1), e, f, g)

/-- Compress one 16-word block into the chaining state
(FIPS 180-4 §6.2.2). -/
def compress (h : List ℕ) (m : List ℕ) : List ℕ :=
  let w := schedule m
  let s := (List.range 64).foldl (compressionRound w)
    (h.getD 0 0, h.getD 1 0, h.getD 2 0, h.getD 3 0,
     h.getD 4 0, h.getD 5 0, h.getD 6 0, h.getD 7 0)
  match s with
  | (a, b, c, d, e, f, g, hh) =>
    [w32 (h.getD 0 0 + a), w32 (h.getD 1 0 + b), w32 (h.getD 2 0 + c), w32 (h.getD 3 0 + d),
     w32 (h.getD 4 0 + e), w32 (h.getD 5 0 + f), w32 (h.getD 6 0 + g), w32 (h.getD 7 0 + hh)]

/-- SHA-256 digest (32 bytes) of a byte list. -/
def sha256 (msg : List ℕ) : List ℕ :=
  (((blocks16 (toWords (pad msg))).foldl compress H0).map (bytesBE 4)).flatten

/-- Lowercase hex rendering of a byte list, two digits per byte (the Rust
side formats the digest with `{:x}`). -/
def hexOfBytes (bs : List ℕ) : String :=
  ((bs.map fun b => [Nat.digitChar (b / 16 % 16), Nat.digitChar (b % 16)]).flatten).asString

end SHA256

/-- Gossip message envelope: topic, payload bytes, propagation source. -/
structure GossipMessage where
  topic : String
  data : List ℕ
  propagation_source : String
deriving DecidableEq

/-- The gossipsub `message_id_fn` (p2p.rs lines 174-180): the SHA-256 hash
of the payload bytes, in lowercase hex.  Neither the topic nor the source
peer feeds the hash. -/
def message_id (m : GossipMessage) : String := SHA256.hexOfBytes (SHA256.sha256 m.data)

/-- Modelled from the spec: the deduplication state of the gossip router
(spec §4.3 and §3, message envelope).  The duplicate cache itself lives in
the external libp2p gossipsub crate, not under src/; `seen` holds the
already-observed message ids and `delivered` the messages handed on to the
consensus processor, in order. -/
structure RouterState where
  seen : List String
  delivered : List GossipMessage
deriving DecidableEq

/-- Modelled from the spec: inbound message handling with deduplication by
`message_id` (spec §4.3): a message whose id has been seen is dropped
without re-delivery, whoever sent it; otherwise it is delivered to the
consensus processor and its id recorded. -/
def handle_message (s : RouterState) (m : GossipMessage) : RouterState :=
  if message_id m ∈ s.seen then s
  else { seen := message_id m :: s.seen, delivered := s.delivered ++ [m] }

/-- Claim C5: the message id is a function of the payload bytes alone — two
envelopes with equal payloads get equal ids whatever their topics or source
peers — and a second delivery of an already-seen id (in particular, any
re-delivery of the same payload) is dropped and never reaches the consensus
processor. -/
theorem message_id_deterministic_and_dedup :
    (∀ m₁ m₂ : GossipMessage, m₁.data = m₂.data → message_id m₁ = message_id m₂)
    ∧ (∀ (s : RouterState) (m m' : GossipMessage), m'.data = m.data →
        (handle_message (handle_message s m) m').delivered
          = (handle_message s m).delivered) := by
  have hid : ∀ m₁ m₂ : GossipMessage, m₁.data = m₂.data → message_id m₁ = message_id m₂ := by
    intro m₁ m₂ h
    unfold message_id
    rw [h]
  refine ⟨hid, ?_⟩
  intro s m m' h
  have hmm : message_id m' = message_id m := hid m' m h
  by_cases hs : message_id m ∈ s.seen
  · simp [handle_message, hs, hmm]
  · simp [handle_message, hs, hmm]

/-- Witness for C5: equal payloads from different topics and peers collide,
and the duplicate is not delivered a second time. -/
theorem message_id_deterministic_and_dedup_witness :
    message_id ⟨"omne/transactions/1", [1, 2, 3], "peerA"⟩
      = message_id ⟨"omne/attestations/1", [1, 2, 3], "peerB"⟩
    ∧ (handle_message (handle_message ⟨[], []⟩ ⟨"omne/transactions/1", [1, 2, 3], "peerA"⟩)
          ⟨"omne/transactions/1", [1, 2, 3], "peerB"⟩).delivered
      = (handle_message ⟨[], []⟩ ⟨"omne/transactions/1", [1, 2, 3], "peerA"⟩).delivered :=
  ⟨message_id_deterministic_and_dedup.1 _ _ rfl,
   message_id_deterministic_and_dedup.2 ⟨[], []⟩ _ _ rfl⟩

end OmneValidator
